import Mathlib

/-!
Verification of the raw-to-domain conversion core of a Met Office
point-forecast client (`rjw-metoffice`).

The Rust source is shallowly embedded: each struct becomes a Lean
structure, each fallible conversion an executable function into
`Except Error _`, and operations that can panic (`Vec::remove(0)`,
`Option::unwrap`, `expect`) are made explicit through a `RunResult`
wrapper whose `panicked` constructor marks abnormal termination.

IEEE floating point numbers (`f32`/`f64`) are embedded as the type `F64`:
an exact rational carrier plus the three non-finite shapes (NaN, ±∞),
with IEEE comparison semantics for `<=` (NaN compares false with
everything).  All numeric literals appearing in the source (±90.0,
±180.0) are exactly representable, so range checks on finite values
agree exactly with the rational comparisons.  Rounding performed by
Rust's `as f32` narrowing cast is not modelled (no verified property
depends on it): the cast carries the value unchanged.
-/

/-- Model of an IEEE float (either width): NaN, ±∞, or an exact finite value. -/
inductive F64 : Type
  | nan : F64
  | posInf : F64
  | negInf : F64
  | fin (q : ℚ) : F64
deriving DecidableEq, Repr

namespace F64

/-- IEEE `<=` on floats: any comparison involving NaN is false;
`-∞ <= x` and `x <= +∞` for non-NaN `x`; finite values compare exactly. -/
def le : F64 → F64 → Bool
  | nan, _ => false
  | _, nan => false
  | negInf, _ => true
  | _, posInf => true
  | posInf, _ => false
  | fin _, negInf => false
  | fin a, fin b => decide (a ≤ b)

end F64

/-- Rust's `as f32` narrowing cast from `f64`.  The rounding step is not
modelled: the value is carried unchanged (no claim here depends on the
rounding, only on which array slot feeds which field). -/
def f64AsF32 (x : F64) : F64 := x

/-- `enum Error` from `src/error.rs`: JSON parse failure, geographic
degrees out of bounds, or an unknown significant weather code (carrying
the offending `i8` code, embedded as `Int`). -/
inductive Error : Type
  | Serde : Error
  | GeographicDegreesOutOfBounds : Error
  | UnknownWeatherCondition (code : Int) : Error
deriving DecidableEq, Repr

/-- `Latitude` newtype from `src/units.rs`: decimal degrees, WGS 84. -/
structure Latitude where
  d : F64
deriving DecidableEq, Repr

/-- `Latitude::new`: accepts `d` iff `matches!(d, -90.0..=90.0)`, i.e.
`-90.0 <= d && d <= 90.0` under IEEE comparison (NaN and ±∞ fail). -/
def Latitude.new (d : F64) : Except Error Latitude :=
  if (F64.le (.fin (-90)) d && F64.le d (.fin 90)) = true then
    .ok ⟨d⟩
  else
    .error .GeographicDegreesOutOfBounds

/-- `Longitude` newtype from `src/units.rs`: decimal degrees, WGS 84. -/
structure Longitude where
  d : F64
deriving DecidableEq, Repr

/-- `Longitude::new`: accepts `d` iff `matches!(d, -180.0..=180.0)`. -/
def Longitude.new (d : F64) : Except Error Longitude :=
  if (F64.le (.fin (-180)) d && F64.le d (.fin 180)) = true then
    .ok ⟨d⟩
  else
    .error .GeographicDegreesOutOfBounds

/-- `Percentage` newtype (wraps `f32`). -/
structure Percentage where
  val : F64
deriving DecidableEq, Repr

/-- `Metres` newtype (wraps `f32`). -/
structure Metres where
  val : F64
deriving DecidableEq, Repr

/-- `MetresPerSecond` newtype (wraps `f32`). -/
structure MetresPerSecond where
  val : F64
deriving DecidableEq, Repr

/-- `Millimetres` newtype (wraps `f32`). -/
structure Millimetres where
  val : F64
deriving DecidableEq, Repr

/-- `MillimetresPerHour` newtype (wraps `f32`). -/
structure MillimetresPerHour where
  val : F64
deriving DecidableEq, Repr

/-- `Celsius` newtype (wraps `f32`). -/
structure Celsius where
  val : F64
deriving DecidableEq, Repr

/-- `Pascals` newtype (wraps `u32`, embedded as `Nat`). -/
structure Pascals where
  val : Nat
deriving DecidableEq, Repr

/-- `Degrees` azimuth newtype (wraps `f32`). -/
structure Degrees where
  val : F64
deriving DecidableEq, Repr

/-- `UvIndex` newtype from `src/units.rs` (wraps `u8`, embedded as `Nat`). -/
structure UvIndex where
  val : Nat
deriving DecidableEq, Repr

/-- `UvIndex::advice_message` from `src/units.rs`: safety advice for a
given UV index, banded 0–2 / 3–5 / 6 and above. -/
def UvIndex.advice_message (u : UvIndex) : String :=
  if u.val ≤ 2 then
    "No protection required. You can safely stay outside."
  else if u.val ≤ 5 then
    "Seek shade during midday hours, cover up and wear sunscreen."
  else
    "Avoid being outside during midday hours. Shirt, sunscreen and hat are essential."

/-- `Coordinates` from `src/units.rs`: named fields in (latitude,
longitude, altitude) order. -/
structure Coordinates where
  latitude : Latitude
  longitude : Longitude
  altitude : Metres
deriving DecidableEq, Repr

/-- `impl TryFrom<[f64; 3]> for Coordinates` (`src/units.rs` 91–105):
destructures the array as `[lon, lat, alt]` — longitude first —
validates latitude then longitude, and narrows the altitude to `f32`. -/
def Coordinates.tryFrom (value : F64 × F64 × F64) : Except Error Coordinates :=
  let (lon, lat, alt) := value
  match Latitude.new lat with
  | .error e => .error e
  | .ok latitude =>
    match Longitude.new lon with
    | .error e => .error e
    | .ok longitude =>
      .ok { latitude := latitude, longitude := longitude, altitude := ⟨f64AsF32 alt⟩ }

/-- `enum Conditions` from `src/units.rs`: the closed set of significant
weather conditions. -/
inductive Conditions : Type
  | TraceRain
  | ClearNight
  | SunnyDay
  | PartlyCloudyNight
  | PartlyCloudyDay
  | Mist
  | Fog
  | Cloudy
  | Overcast
  | LightRainShowerNight
  | LightRainShowerDay
  | Drizzle
  | LightRain
  | HeavyRainShowerNight
  | HeavyRainShowerDay
  | HeavyRain
  | SleetShowerNight
  | SleetShowerDay
  | Sleet
  | HailShowerNight
  | HailShowerDay
  | Hail
  | LightSnowShowerNight
  | LightSnowShowerDay
  | LightSnow
  | HeavySnowShowerNight
  | HeavySnowShowerDay
  | HeavySnow
  | ThunderShowerNight
  | ThunderShowerDay
  | Thunder
deriving DecidableEq, Repr

/-- `impl TryFrom<i8> for Conditions` (`src/units.rs` 253–294): fixed
lookup from the provider's significant-weather code (code 4 unused);
anything else is `Error::UnknownWeatherCondition(code)`. -/
def Conditions.tryFrom (code : Int) : Except Error Conditions :=
  if code = -1 then .ok .TraceRain
  else if code = 0 then .ok .ClearNight
  else if code = 1 then .ok .SunnyDay
  else if code = 2 then .ok .PartlyCloudyNight
  else if code = 3 then .ok .PartlyCloudyDay
  else if code = 5 then .ok .Mist
  else if code = 6 then .ok .Fog
  else if code = 7 then .ok .Cloudy
  else if code = 8 then .ok .Overcast
  else if code = 9 then .ok .LightRainShowerNight
  else if code = 10 then .ok .LightRainShowerDay
  else if code = 11 then .ok .Drizzle
  else if code = 12 then .ok .LightRain
  else if code = 13 then .ok .HeavyRainShowerNight
  else if code = 14 then .ok .HeavyRainShowerDay
  else if code = 15 then .ok .HeavyRain
  else if code = 16 then .ok .SleetShowerNight
  else if code = 17 then .ok .SleetShowerDay
  else if code = 18 then .ok .Sleet
  else if code = 19 then .ok .HailShowerNight
  else if code = 20 then .ok .HailShowerDay
  else if code = 21 then .ok .Hail
  else if code = 22 then .ok .LightSnowShowerNight
  else if code = 23 then .ok .LightSnowShowerDay
  else if code = 24 then .ok .LightSnow
  else if code = 25 then .ok .HeavySnowShowerNight
  else if code = 26 then .ok .HeavySnowShowerDay
  else if code = 27 then .ok .HeavySnow
  else if code = 28 then .ok .ThunderShowerNight
  else if code = 29 then .ok .ThunderShowerDay
  else if code = 30 then .ok .Thunder
  else .error (.UnknownWeatherCondition code)

/-- Left inverse of `Conditions.tryFrom` on the valid code set: the
provider code each variant decodes from. -/
def Conditions.code : Conditions → Int
  | .TraceRain => -1
  | .ClearNight => 0
  | .SunnyDay => 1
  | .PartlyCloudyNight => 2
  | .PartlyCloudyDay => 3
  | .Mist => 5
  | .Fog => 6
  | .Cloudy => 7
  | .Overcast => 8
  | .LightRainShowerNight => 9
  | .LightRainShowerDay => 10
  | .Drizzle => 11
  | .LightRain => 12
  | .HeavyRainShowerNight => 13
  | .HeavyRainShowerDay => 14
  | .HeavyRain => 15
  | .SleetShowerNight => 16
  | .SleetShowerDay => 17
  | .Sleet => 18
  | .HailShowerNight => 19
  | .HailShowerDay => 20
  | .Hail => 21
  | .LightSnowShowerNight => 22
  | .LightSnowShowerDay => 23
  | .LightSnow => 24
  | .HeavySnowShowerNight => 25
  | .HeavySnowShowerDay => 26
  | .HeavySnow => 27
  | .ThunderShowerNight => 28
  | .ThunderShowerDay => 29
  | .Thunder => 30

/-- Model of `jiff::Zoned`: an opaque zoned timestamp, carried through
conversions untouched.  Embedded as an integer instant. -/
structure Zoned where
  instant : Int
deriving DecidableEq, Repr

/-- `RawHourlyForecast` from `src/parse.rs` (253–325): the provider's
wire-shaped hourly record.  Five fields are optional (absent in the
trailing records of a series). -/
structure RawHourlyForecast where
  time : Zoned
  screen_temperature : F64
  max_screen_air_temp : Option F64
  min_screen_air_temp : Option F64
  screen_dew_point_temperature : F64
  feels_like_temperature : F64
  wind_speed_10m : F64
  wind_direction_from_10m : F64
  wind_gust_speed_10m : F64
  max_10m_wind_gust : Option F64
  visibility : F64
  screen_relative_humidity : F64
  mslp : Nat
  uv_index : Nat
  significant_weather_code : Int
  precipitation_rate : F64
  total_precip_amount : Option F64
  total_snow_amount : Option F64
  prob_of_precipitation : F64
deriving DecidableEq, Repr

/-- `Hourly` domain record from `src/hourly.rs`. -/
structure Hourly where
  time : Zoned
  conditions : Conditions
  temperature : Celsius
  temperature_maximum : Option Celsius
  temperature_minimum : Option Celsius
  temperature_feels_like : Celsius
  screen_dew_point_temperature : Celsius
  precipitation_probability : Percentage
  precipitation_rate : MillimetresPerHour
  precipitation_total : Option Millimetres
  snow_total : Option Millimetres
  wind_speed : MetresPerSecond
  wind_direction : Degrees
  wind_gust_speed : MetresPerSecond
  wind_gust_hourly_maximum_speed : Option MetresPerSecond
  visibility : Metres
  relative_humidity : Percentage
  pressure : Pascals
  uv_index : UvIndex
deriving DecidableEq, Repr

/-- `impl TryFrom<RawHourlyForecast> for Hourly` (`src/hourly.rs` 80–106):
field-by-field unit wrapping; the only fallible step is decoding the
significant weather code; the five optional raw fields map through
`Option.map`. -/
def Hourly.tryFrom (rf : RawHourlyForecast) : Except Error Hourly :=
  match Conditions.tryFrom rf.significant_weather_code with
  | .error e => .error e
  | .ok c =>
    .ok
      { time := rf.time
        conditions := c
        temperature := ⟨rf.screen_temperature⟩
        temperature_feels_like := ⟨rf.feels_like_temperature⟩
        screen_dew_point_temperature := ⟨rf.screen_dew_point_temperature⟩
        temperature_maximum := rf.max_screen_air_temp.map Celsius.mk
        temperature_minimum := rf.min_screen_air_temp.map Celsius.mk
        precipitation_probability := ⟨rf.prob_of_precipitation⟩
        precipitation_rate := ⟨rf.precipitation_rate⟩
        precipitation_total := rf.total_precip_amount.map Millimetres.mk
        snow_total := rf.total_snow_amount.map Millimetres.mk
        wind_speed := ⟨rf.wind_speed_10m⟩
        wind_direction := ⟨rf.wind_direction_from_10m⟩
        wind_gust_speed := ⟨rf.wind_gust_speed_10m⟩
        wind_gust_hourly_maximum_speed := rf.max_10m_wind_gust.map MetresPerSecond.mk
        visibility := ⟨rf.visibility⟩
        relative_humidity := ⟨rf.screen_relative_humidity⟩
        pressure := ⟨rf.mslp⟩
        uv_index := ⟨rf.uv_index⟩ }

/-- Result of running Rust code that may panic: either a normal value or
abnormal termination (`Vec::remove` on an empty vector, `Option::unwrap`
on `None`, `expect` on a parse failure). -/
inductive RunResult (α : Type) : Type
  | panicked : RunResult α
  | value (val : α) : RunResult α
deriving DecidableEq, Repr

/-- A fallible Rust computation that may also panic. -/
def Conv (α : Type) : Type := RunResult (Except Error α)

/-- Sequencing for `Conv`: a panic or an `Err` short-circuits, mirroring
panic propagation and the `?` operator. -/
def Conv.andThen {α β : Type} (m : Conv α) (f : α → Conv β) : Conv β :=
  match m with
  | .panicked => .panicked
  | .value (.error e) => .value (.error e)
  | .value (.ok a) => f a

/-- `Option::unwrap`: panics on `None`. -/
def unwrapOrPanic {α : Type} (o : Option α) : Conv α :=
  match o with
  | none => .panicked
  | some a => .value (.ok a)

/-- Lift a non-panicking fallible step into `Conv` (the `?` operator on a
plain `Result`). -/
def liftResult {α : Type} (r : Except Error α) : Conv α := .value r

/-- A successfully computed value. -/
def Conv.pure {α : Type} (a : α) : Conv α := .value (.ok a)

/-- Modelled from the spec: `RawDailyForecast`, the provider's
wire-shaped daily record.  Its declaration lives in the revision of
`src/parse.rs` that is not included here; field names, types and
optionality are reconstructed from its only consumer
(`impl TryFrom<RawDailyForecast> for Daily`, `src/daily.rs` 247–334) and
the spec's field lists: the future-only fields (day max feels-like
temperature, max UV index, day significant weather code, and the seven
day precipitation probabilities) are optional; everything else is
mandatory. -/
structure RawDailyForecast where
  time : Zoned
  midday_10m_wind_speed : F64
  midday_10m_wind_direction : F64
  midday_10m_wind_gust : F64
  midday_visibility : F64
  midday_relative_humidity : F64
  midday_mslp : Nat
  day_max_screen_temperature : F64
  day_upper_bound_max_temp : F64
  day_lower_bound_max_temp : F64
  day_max_feels_like_temp : Option F64
  day_upper_bound_max_feels_like_temp : F64
  day_lower_bound_max_feels_like_temp : F64
  max_uv_index : Option Nat
  day_significant_weather_code : Option Int
  day_probability_of_precipitation : Option F64
  day_probability_of_rain : Option F64
  day_probability_of_heavy_rain : Option F64
  day_probability_of_snow : Option F64
  day_probability_of_heavy_snow : Option F64
  day_probability_of_hail : Option F64
  day_probability_of_sferics : Option F64
  midnight_10m_wind_speed : F64
  midnight_10m_wind_direction : F64
  midnight_10m_wind_gust : F64
  midnight_visibility : F64
  midnight_relative_humidity : F64
  midnight_mslp : Nat
  night_significant_weather_code : Int
  night_min_screen_temperature : F64
  night_upper_bound_min_temp : F64
  night_lower_bound_min_temp : F64
  night_min_feels_like_temp : F64
  night_upper_bound_min_feels_like_temp : F64
  night_lower_bound_min_feels_like_temp : F64
  night_probability_of_precipitation : F64
  night_probability_of_rain : F64
  night_probability_of_heavy_rain : F64
  night_probability_of_snow : F64
  night_probability_of_heavy_snow : F64
  night_probability_of_hail : F64
  night_probability_of_sferics : F64
deriving DecidableEq, Repr

/-- `TemperaturePrediction` from `src/daily.rs`: most likely extreme plus
97.5%-confidence bounds. -/
structure TemperaturePrediction where
  most_likely : Celsius
  upper_bound : Celsius
  lower_bound : Celsius
deriving DecidableEq, Repr

/-- Fields of the `Day::Past` variant (`src/daily.rs` 81–125). -/
structure PastDay where
  temperature_maximum : TemperaturePrediction
  temperature_feels_like_maximum_upper_bound : Celsius
  temperature_feels_like_maximum_lower_bound : Celsius
  relative_humidity : Percentage
  pressure : Pascals
  visibility : Metres
  wind_speed : MetresPerSecond
  wind_direction : Degrees
  wind_gust_speed : MetresPerSecond
deriving DecidableEq, Repr

/-- Fields of the `Day::Future` variant (`src/daily.rs` 126–181). -/
structure FutureDay where
  conditions : Conditions
  temperature_maximum : TemperaturePrediction
  temperature_feels_like_maximum : TemperaturePrediction
  relative_humidity : Percentage
  precipitation_probability : Percentage
  rain_probability : Percentage
  heavy_rain_probability : Percentage
  snow_probability : Percentage
  heavy_snow_probability : Percentage
  hail_probability : Percentage
  lightning_probability : Percentage
  pressure : Pascals
  uv_index_maximum : UvIndex
  visibility : Metres
  wind_speed : MetresPerSecond
  wind_direction : Degrees
  wind_gust_speed : MetresPerSecond
deriving DecidableEq, Repr

/-- `enum Day` from `src/daily.rs`: the first (elapsed) day of a series
is `Past` with a reduced field set; later days are `Future`. -/
inductive Day : Type
  | Past (p : PastDay) : Day
  | Future (f : FutureDay) : Day
deriving DecidableEq, Repr

/-- `Night` from `src/daily.rs`: always-complete nighttime data. -/
structure Night where
  conditions : Conditions
  temperature_minimum : TemperaturePrediction
  temperature_feels_like_minimum : TemperaturePrediction
  relative_humidity : Percentage
  precipitation_probability : Percentage
  rain_probability : Percentage
  heavy_rain_probability : Percentage
  snow_probability : Percentage
  heavy_snow_probability : Percentage
  hail_probability : Percentage
  lightning_probability : Percentage
  pressure : Pascals
  visibility : Metres
  wind_speed : MetresPerSecond
  wind_direction : Degrees
  wind_gust_speed : MetresPerSecond
deriving DecidableEq, Repr

/-- `Daily` from `src/daily.rs`: a day-plus-following-night record. -/
structure Daily where
  time : Zoned
  day : Day
  night : Night
deriving DecidableEq, Repr

/-- The `Night` struct literal built at `src/daily.rs` 306–331 once the
night significant-weather code has decoded to `nc`. -/
def Night.ofRaw (rf : RawDailyForecast) (nc : Conditions) : Night :=
  { wind_speed := ⟨rf.midnight_10m_wind_speed⟩
    wind_direction := ⟨rf.midnight_10m_wind_direction⟩
    wind_gust_speed := ⟨rf.midnight_10m_wind_gust⟩
    visibility := ⟨rf.midnight_visibility⟩
    relative_humidity := ⟨rf.midnight_relative_humidity⟩
    pressure := ⟨rf.midnight_mslp⟩
    conditions := nc
    temperature_minimum :=
      { most_likely := ⟨rf.night_min_screen_temperature⟩
        upper_bound := ⟨rf.night_upper_bound_min_temp⟩
        lower_bound := ⟨rf.night_lower_bound_min_temp⟩ }
    temperature_feels_like_minimum :=
      { most_likely := ⟨rf.night_min_feels_like_temp⟩
        upper_bound := ⟨rf.night_upper_bound_min_feels_like_temp⟩
        lower_bound := ⟨rf.night_lower_bound_min_feels_like_temp⟩ }
    precipitation_probability := ⟨rf.night_probability_of_precipitation⟩
    rain_probability := ⟨rf.night_probability_of_rain⟩
    heavy_rain_probability := ⟨rf.night_probability_of_heavy_rain⟩
    snow_probability := ⟨rf.night_probability_of_snow⟩
    heavy_snow_probability := ⟨rf.night_probability_of_heavy_snow⟩
    hail_probability := ⟨rf.night_probability_of_hail⟩
    lightning_probability := ⟨rf.night_probability_of_sferics⟩ }

/-- `impl TryFrom<RawDailyForecast> for Daily` (`src/daily.rs` 247–334).
The discriminator is the presence of `day_max_feels_like_temp` alone:
absent builds `Day::Past`, present builds `Day::Future`.  In the
`Future` branch the evaluation order of the Rust struct literal is kept:
`max_uv_index.unwrap()`, then `day_significant_weather_code.unwrap()`
followed by its `try_into()?`, then the seven probability `unwrap()`s in
source order; the night portion is converted last. -/
def Daily.tryFrom (rf : RawDailyForecast) : Conv Daily :=
  match rf.day_max_feels_like_temp with
  | none =>
    Conv.andThen (liftResult (Conditions.tryFrom rf.night_significant_weather_code)) fun nc =>
    Conv.pure
      { time := rf.time
        day := Day.Past
          { wind_speed := ⟨rf.midday_10m_wind_speed⟩
            wind_direction := ⟨rf.midday_10m_wind_direction⟩
            wind_gust_speed := ⟨rf.midday_10m_wind_gust⟩
            visibility := ⟨rf.midday_visibility⟩
            relative_humidity := ⟨rf.midday_relative_humidity⟩
            pressure := ⟨rf.midday_mslp⟩
            temperature_maximum :=
              { most_likely := ⟨rf.day_max_screen_temperature⟩
                upper_bound := ⟨rf.day_upper_bound_max_temp⟩
                lower_bound := ⟨rf.day_lower_bound_max_temp⟩ }
            temperature_feels_like_maximum_upper_bound := ⟨rf.day_upper_bound_max_feels_like_temp⟩
            temperature_feels_like_maximum_lower_bound := ⟨rf.day_lower_bound_max_feels_like_temp⟩ }
        night := Night.ofRaw rf nc }
  | some feels =>
    Conv.andThen (unwrapOrPanic rf.max_uv_index) fun uv =>
    Conv.andThen (unwrapOrPanic rf.day_significant_weather_code) fun dayCode =>
    Conv.andThen (liftResult (Conditions.tryFrom dayCode)) fun dc =>
    Conv.andThen (unwrapOrPanic rf.day_probability_of_precipitation) fun pp =>
    Conv.andThen (unwrapOrPanic rf.day_probability_of_rain) fun pr =>
    Conv.andThen (unwrapOrPanic rf.day_probability_of_heavy_rain) fun phr =>
    Conv.andThen (unwrapOrPanic rf.day_probability_of_snow) fun ps =>
    Conv.andThen (unwrapOrPanic rf.day_probability_of_heavy_snow) fun phs =>
    Conv.andThen (unwrapOrPanic rf.day_probability_of_hail) fun ph =>
    Conv.andThen (unwrapOrPanic rf.day_probability_of_sferics) fun psf =>
    Conv.andThen (liftResult (Conditions.tryFrom rf.night_significant_weather_code)) fun nc =>
    Conv.pure
      { time := rf.time
        day := Day.Future
          { wind_speed := ⟨rf.midday_10m_wind_speed⟩
            wind_direction := ⟨rf.midday_10m_wind_direction⟩
            wind_gust_speed := ⟨rf.midday_10m_wind_gust⟩
            visibility := ⟨rf.midday_visibility⟩
            relative_humidity := ⟨rf.midday_relative_humidity⟩
            pressure := ⟨rf.midday_mslp⟩
            uv_index_maximum := ⟨uv⟩
            conditions := dc
            temperature_maximum :=
              { most_likely := ⟨rf.day_max_screen_temperature⟩
                upper_bound := ⟨rf.day_upper_bound_max_temp⟩
                lower_bound := ⟨rf.day_lower_bound_max_temp⟩ }
            temperature_feels_like_maximum :=
              { most_likely := ⟨feels⟩
                upper_bound := ⟨rf.day_upper_bound_max_feels_like_temp⟩
                lower_bound := ⟨rf.day_lower_bound_max_feels_like_temp⟩ }
            precipitation_probability := ⟨pp⟩
            rain_probability := ⟨pr⟩
            heavy_rain_probability := ⟨phr⟩
            snow_probability := ⟨ps⟩
            heavy_snow_probability := ⟨phs⟩
            hail_probability := ⟨ph⟩
            lightning_probability := ⟨psf⟩ }
        night := Night.ofRaw rf nc }

/-- Modelled from the spec: `Location` inside the raw envelope's
`properties` (declared in the missing revision of `src/parse.rs`; its
`name` field is read by `src/forecast.rs` 79). -/
structure Location where
  name : String
deriving DecidableEq, Repr

/-- Modelled from the spec: `Geometry` of the raw envelope's single
feature, carrying the already-validated coordinates (read at
`src/forecast.rs` 80). -/
structure Geometry where
  coordinates : Coordinates
deriving DecidableEq, Repr

/-- Modelled from the spec: the raw feature `properties` — location
name, request-point distance, model-run timestamp and the granularity's
time series (read at `src/forecast.rs` 79–88). -/
structure Properties (R : Type) where
  location : Location
  request_point_distance : F64
  model_run_date : Zoned
  time_series : List R
deriving DecidableEq, Repr

/-- Modelled from the spec: one feature of the GeoJSON-like feature
collection. -/
structure RawFeature (R : Type) where
  geometry : Geometry
  properties : Properties R
deriving DecidableEq, Repr

/-- Modelled from the spec: `RawForecast<R>`, the provider's envelope — a
feature collection whose single feature holds the time series (consumed
by `impl TryFrom<RawForecast<R>> for Forecast`, `src/forecast.rs`
70–91). -/
structure RawForecast (R : Type) where
  features : List (RawFeature R)
deriving DecidableEq, Repr

/-- `Forecast<T>` from `src/forecast.rs` 11–26: the domain envelope. -/
structure Forecast (T : Type) where
  location_name : String
  coordinates : Coordinates
  requested_point_distance : Metres
  predictions_made_at : Zoned
  predictions : List T
deriving DecidableEq, Repr

/-- `Iterator::collect::<Result<Vec<_>, _>>` over a mapped time series:
convert elements left to right, stopping at the first error. -/
def collectResults {R T : Type} (conv : R → Except Error T) : List R → Except Error (List T)
  | [] => .ok []
  | r :: rs =>
    match conv r with
    | .error e => .error e
    | .ok t =>
      match collectResults conv rs with
      | .error e => .error e
      | .ok ts => .ok (t :: ts)

/-- `impl TryFrom<RawForecast<R>> for Forecast<R::Output>`
(`src/forecast.rs` 70–91), generic over the per-granularity element
converter `conv`.  `value.features.remove(0)` takes the first feature
and panics when the feature list is empty. -/
def Forecast.tryFrom {R T : Type} (conv : R → Except Error T)
    (value : RawForecast R) : Conv (Forecast T) :=
  match value.features with
  | [] => .panicked
  | feature :: _ =>
    match collectResults conv feature.properties.time_series with
    | .error e => .value (.error e)
    | .ok preds =>
      .value (.ok
        { location_name := feature.properties.location.name
          coordinates := feature.geometry.coordinates
          requested_point_distance := ⟨feature.properties.request_point_distance⟩
          predictions_made_at := feature.properties.model_run_date
          predictions := preds })

/-- `Except.isOk` specialised to this development's error type. -/
def resultIsOk {α : Type} : Except Error α → Bool
  | .ok _ => true
  | .error _ => false

/-- The three sealed time-period granularities (`src/sealed.rs`),
reimplemented per the spec as a closed set of tagged variants. -/
inductive Granularity : Type
  | hourly
  | threeHourly
  | daily
deriving DecidableEq, Repr

/-- `HOURLY_URL` constant from `src/forecast.rs`. -/
def HOURLY_URL : String :=
  "https://data.hub.api.metoffice.gov.uk/sitespecific/v0/point/hourly"

/-- `THREE_HOURLY_URL` constant from `src/forecast.rs`. -/
def THREE_HOURLY_URL : String :=
  "https://data.hub.api.metoffice.gov.uk/sitespecific/v0/point/three-hourly"

/-- `DAILY_URL` constant from `src/forecast.rs`. -/
def DAILY_URL : String :=
  "https://data.hub.api.metoffice.gov.uk/sitespecific/v0/point/daily"

/-- The fixed base endpoint selected by the granularity (the three
`impl Forecast<_>::url_for_location` blocks, `src/forecast.rs` 52–68). -/
def baseUrlFor : Granularity → String
  | .hourly => HOURLY_URL
  | .threeHourly => THREE_HOURLY_URL
  | .daily => DAILY_URL

/-- A constructed URL: the base endpoint plus its query pairs. -/
structure Url where
  base : String
  query : List (String × String)
deriving DecidableEq, Repr

/-- Modelled from the spec: `Url::parse_with_params` of the external
`url` crate, which is not part of this repository.  Per the spec's
contract it succeeds — query pairs are always percent-encodable — exactly
when the base string is an absolute http(s) URL with a host. -/
def urlParseWithParams (base : String) (params : List (String × String)) : Option Url :=
  if (decide (base.data.take 8 = "https://".data) && decide (8 < base.data.length)) ||
     (decide (base.data.take 7 = "http://".data) && decide (7 < base.data.length)) then
    some { base := base, query := params }
  else
    none

/-- Modelled from the spec: the decimal string form of a float
(`f64::to_string`).  The exact digit sequence Rust produces is not
modelled; finite values render their exact rational value. -/
def f64ToDecimalString : F64 → String
  | .nan => "NaN"
  | .posInf => "inf"
  | .negInf => "-inf"
  | .fin q => toString q

/-- `SOURCE_PARAM` constant from `src/forecast.rs`. -/
def SOURCE_PARAM : String × String := ("source", "BD1")

/-- `METADATA_PARAM` constant from `src/forecast.rs`. -/
def METADATA_PARAM : String × String := ("excludeParameterMetadata", "true")

/-- `LOCATION_NAME_PARAM` constant from `src/forecast.rs`. -/
def LOCATION_NAME_PARAM : String × String := ("includeLocationName", "true")

/-- `Forecast::url_with_params` (`src/forecast.rs` 37–49): parse the base
URL with the latitude/longitude strings and the three constant flags;
`.expect(...)` turns a parse failure into a panic. -/
def urlWithParams (url : String) (latitude : Latitude) (longitude : Longitude) : RunResult Url :=
  match urlParseWithParams url
      [("latitude", f64ToDecimalString latitude.d),
       ("longitude", f64ToDecimalString longitude.d),
       SOURCE_PARAM, METADATA_PARAM, LOCATION_NAME_PARAM] with
  | some u => .value u
  | none => .panicked

/-- `url_for_location` (`src/forecast.rs` 52–68): one entry point per
granularity, dispatching to `url_with_params` with the granularity's
fixed base endpoint. -/
def url_for_location (g : Granularity) (latitude : Latitude) (longitude : Longitude) :
    RunResult Url :=
  urlWithParams (baseUrlFor g) latitude longitude

namespace Lib

/-- `enum UvIndex` from the early revision in `src/lib.rs` (139–146):
the advisory tier, carrying the underlying value in every non-`None`
tier. -/
inductive UvIndex : Type
  | None : UvIndex
  | Low (v : Nat) : UvIndex
  | Moderate (v : Nat) : UvIndex
  | High (v : Nat) : UvIndex
  | VeryHigh (v : Nat) : UvIndex
  | Extreme (v : Nat) : UvIndex
deriving DecidableEq, Repr

/-- `impl From<u8> for UvIndex` (`src/lib.rs` 148–160): band the value
into its advisory tier (0 / 1–2 / 3–5 / 6–7 / 8–10 / 11 and above). -/
def UvIndex.fromU8 (value : Nat) : UvIndex :=
  if value = 0 then .None
  else if value ≤ 2 then .Low value
  else if value ≤ 5 then .Moderate value
  else if value ≤ 7 then .High value
  else if value ≤ 10 then .VeryHigh value
  else .Extreme value

/-- The underlying UV value stored in a tiered index (`None` only arises
from value 0). -/
def UvIndex.value : UvIndex → Nat
  | .None => 0
  | .Low v => v
  | .Moderate v => v
  | .High v => v
  | .VeryHigh v => v
  | .Extreme v => v

end Lib

/-- The six advisory tier names, payload-free. -/
inductive UvTierName : Type
  | None
  | Low
  | Moderate
  | High
  | VeryHigh
  | Extreme
deriving DecidableEq, Repr

/-- The tier constructor of a tiered UV index. -/
def Lib.UvIndex.tier : Lib.UvIndex → UvTierName
  | .None => .None
  | .Low _ => .Low
  | .Moderate _ => .Moderate
  | .High _ => .High
  | .VeryHigh _ => .VeryHigh
  | .Extreme _ => .Extreme

/-- The fixed numeric bands of the advisory tiers, as a pure function of
the UV value: 0 → None, 1–2 → Low, 3–5 → Moderate, 6–7 → High,
8–10 → VeryHigh, 11+ → Extreme. -/
def uvTierOfValue (v : Nat) : UvTierName :=
  if v = 0 then .None
  else if v ≤ 2 then .Low
  else if v ≤ 5 then .Moderate
  else if v ≤ 7 then .High
  else if v ≤ 10 then .VeryHigh
  else .Extreme

/-- The significant-weather lookup table as a total function (valid codes
only; the value at other codes is immaterial).  Used to phrase the
decode theorems without an existential. -/
def conditionsOfCode (code : Int) : Conditions :=
  if code = -1 then .TraceRain
  else if code = 0 then .ClearNight
  else if code = 1 then .SunnyDay
  else if code = 2 then .PartlyCloudyNight
  else if code = 3 then .PartlyCloudyDay
  else if code = 5 then .Mist
  else if code = 6 then .Fog
  else if code = 7 then .Cloudy
  else if code = 8 then .Overcast
  else if code = 9 then .LightRainShowerNight
  else if code = 10 then .LightRainShowerDay
  else if code = 11 then .Drizzle
  else if code = 12 then .LightRain
  else if code = 13 then .HeavyRainShowerNight
  else if code = 14 then .HeavyRainShowerDay
  else if code = 15 then .HeavyRain
  else if code = 16 then .SleetShowerNight
  else if code = 17 then .SleetShowerDay
  else if code = 18 then .Sleet
  else if code = 19 then .HailShowerNight
  else if code = 20 then .HailShowerDay
  else if code = 21 then .Hail
  else if code = 22 then .LightSnowShowerNight
  else if code = 23 then .LightSnowShowerDay
  else if code = 24 then .LightSnow
  else if code = 25 then .HeavySnowShowerNight
  else if code = 26 then .HeavySnowShowerDay
  else if code = 27 then .HeavySnow
  else if code = 28 then .ThunderShowerNight
  else if code = 29 then .ThunderShowerDay
  else if code = 30 then .Thunder
  else .TraceRain

/-- A concrete raw daily record shaped like the provider's first
(already elapsed) day: every future-only field absent. -/
def sampleDailyPast : RawDailyForecast :=
  { time := ⟨1688551200⟩
    midday_10m_wind_speed := .fin 3
    midday_10m_wind_direction := .fin 270
    midday_10m_wind_gust := .fin 6
    midday_visibility := .fin 20000
    midday_relative_humidity := .fin 70
    midday_mslp := 101500
    day_max_screen_temperature := .fin 21
    day_upper_bound_max_temp := .fin 23
    day_lower_bound_max_temp := .fin 19
    day_max_feels_like_temp := none
    day_upper_bound_max_feels_like_temp := .fin 22
    day_lower_bound_max_feels_like_temp := .fin 18
    max_uv_index := none
    day_significant_weather_code := none
    day_probability_of_precipitation := none
    day_probability_of_rain := none
    day_probability_of_heavy_rain := none
    day_probability_of_snow := none
    day_probability_of_heavy_snow := none
    day_probability_of_hail := none
    day_probability_of_sferics := none
    midnight_10m_wind_speed := .fin 2
    midnight_10m_wind_direction := .fin 180
    midnight_10m_wind_gust := .fin 4
    midnight_visibility := .fin 15000
    midnight_relative_humidity := .fin 85
    midnight_mslp := 101300
    night_significant_weather_code := 0
    night_min_screen_temperature := .fin 12
    night_upper_bound_min_temp := .fin 14
    night_lower_bound_min_temp := .fin 10
    night_min_feels_like_temp := .fin 11
    night_upper_bound_min_feels_like_temp := .fin 13
    night_lower_bound_min_feels_like_temp := .fin 9
    night_probability_of_precipitation := .fin 10
    night_probability_of_rain := .fin 10
    night_probability_of_heavy_rain := .fin 2
    night_probability_of_snow := .fin 0
    night_probability_of_heavy_snow := .fin 0
    night_probability_of_hail := .fin 0
    night_probability_of_sferics := .fin 1 }

/-- A concrete raw daily record shaped like a future day: every
future-only field present, both weather codes valid. -/
def sampleDailyFuture : RawDailyForecast :=
  { sampleDailyPast with
    day_max_feels_like_temp := some (.fin 20)
    max_uv_index := some 5
    day_significant_weather_code := some 1
    day_probability_of_precipitation := some (.fin 15)
    day_probability_of_rain := some (.fin 12)
    day_probability_of_heavy_rain := some (.fin 3)
    day_probability_of_snow := some (.fin 0)
    day_probability_of_heavy_snow := some (.fin 0)
    day_probability_of_hail := some (.fin 1)
    day_probability_of_sferics := some (.fin 2) }

/-- A raw daily record whose max feels-like temperature is present, whose
day weather code is the unused code 4, and whose precipitation
probability is absent. -/
def sampleDailyBadCode : RawDailyForecast :=
  { sampleDailyFuture with
    day_significant_weather_code := some 4
    day_probability_of_precipitation := none }

/-- A raw daily record whose max feels-like temperature is present but
whose max UV index is absent. -/
def sampleDailyNoUv : RawDailyForecast :=
  { sampleDailyFuture with max_uv_index := none }

/-- A concrete raw hourly record with all five optional fields absent
(the shape of the last three records of a 49-record series). -/
def sampleHourlyTail : RawHourlyForecast :=
  { time := ⟨1688554800⟩
    screen_temperature := .fin 18
    max_screen_air_temp := none
    min_screen_air_temp := none
    screen_dew_point_temperature := .fin 12
    feels_like_temperature := .fin 17
    wind_speed_10m := .fin 4
    wind_direction_from_10m := .fin 200
    wind_gust_speed_10m := .fin 7
    max_10m_wind_gust := none
    visibility := .fin 30000
    screen_relative_humidity := .fin 65
    mslp := 101800
    uv_index := 3
    significant_weather_code := 7
    precipitation_rate := .fin 0
    total_precip_amount := none
    total_snow_amount := none
    prob_of_precipitation := .fin 5 }

/-- A concrete raw feature whose time series is the two weather codes
[1, 0]. -/
def sampleFeature : RawFeature Int :=
  { geometry := { coordinates :=
      { latitude := ⟨.fin (50727/1000)⟩
        longitude := ⟨.fin (-(3474/1000))⟩
        altitude := ⟨.fin 27⟩ } }
    properties :=
      { location := { name := "Exeter" }
        request_point_distance := .fin (279057/10000)
        model_run_date := ⟨1688551200⟩
        time_series := [1, 0] } }

/-- A concrete raw envelope holding the single feature above. -/
def sampleEnvelope : RawForecast Int :=
  { features := [sampleFeature] }

lemma latitude_new_ok_or_bounds (d : F64) :
    Latitude.new d = .ok ⟨d⟩ ∨ Latitude.new d = .error .GeographicDegreesOutOfBounds := by
  unfold Latitude.new
  split <;> simp

lemma latitude_new_error_of_bad (lat : F64)
    (h : ∀ q, lat = F64.fin q → q < -90 ∨ 90 < q) :
    Latitude.new lat = .error .GeographicDegreesOutOfBounds := by
  cases lat with
  | nan => rfl
  | posInf => rfl
  | negInf => rfl
  | fin q =>
    unfold Latitude.new
    rw [if_neg]
    simp only [F64.le, Bool.and_eq_true, decide_eq_true_eq]
    rintro ⟨h1, h2⟩
    rcases h q rfl with h' | h' <;> linarith

lemma longitude_new_error_of_bad (lon : F64)
    (h : ∀ q, lon = F64.fin q → q < -180 ∨ 180 < q) :
    Longitude.new lon = .error .GeographicDegreesOutOfBounds := by
  cases lon with
  | nan => rfl
  | posInf => rfl
  | negInf => rfl
  | fin q =>
    unfold Longitude.new
    rw [if_neg]
    simp only [F64.le, Bool.and_eq_true, decide_eq_true_eq]
    rintro ⟨h1, h2⟩
    rcases h q rfl with h' | h' <;> linarith

set_option maxHeartbeats 1600000 in
lemma conditions_tryFrom_inSet (c : Int) (h1 : -1 ≤ c) (h2 : c ≤ 30) (h3 : c ≠ 4) :
    Conditions.tryFrom c = .ok (conditionsOfCode c) ∧
      Conditions.code (conditionsOfCode c) = c := by
  interval_cases c <;> first
    | exact absurd rfl h3
    | exact ⟨rfl, rfl⟩

set_option maxHeartbeats 1600000 in
lemma conditions_tryFrom_notInSet (c : Int) (h : ¬(-1 ≤ c ∧ c ≤ 30 ∧ c ≠ 4)) :
    Conditions.tryFrom c = .error (.UnknownWeatherCondition c) := by
  unfold Conditions.tryFrom
  repeat rw [if_neg (by omega)]

lemma collectResults_ok_spec {R T : Type} (conv : R → Except Error T) :
    ∀ (l : List R) (ts : List T), collectResults conv l = .ok ts →
      ts.length = l.length ∧
        ∀ i (h1 : i < l.length) (h2 : i < ts.length),
          conv (l.get ⟨i, h1⟩) = .ok (ts.get ⟨i, h2⟩) := by
  intro l
  induction l with
  | nil =>
    intro ts h
    simp only [collectResults] at h
    cases h
    simp
  | cons r rs ih =>
    intro ts h
    simp only [collectResults] at h
    cases hc : conv r with
    | error e => rw [hc] at h; cases h
    | ok t =>
      rw [hc] at h
      cases hrec : collectResults conv rs with
      | error e => rw [hrec] at h; cases h
      | ok ts' =>
        rw [hrec] at h
        cases h
        obtain ⟨hlen, helem⟩ := ih ts' hrec
        refine ⟨by simp [hlen], ?_⟩
        intro i hi1 hi2
        cases i with
        | zero => simpa using hc
        | succ j =>
          simp only [List.get_cons_succ]
          exact helem j (by simpa using hi1) (by simpa using hi2)

lemma collectResults_first_error {R T : Type} (conv : R → Except Error T) :
    ∀ (l : List R) (i : Nat) (h1 : i < l.length) (e : Error),
      (∀ j (hj : j < l.length), j < i → resultIsOk (conv (l.get ⟨j, hj⟩)) = true) →
      conv (l.get ⟨i, h1⟩) = .error e →
      collectResults conv l = .error e := by
  intro l
  induction l with
  | nil => intro i h1; simp at h1
  | cons r rs ih =>
    intro i h1 e hok herr
    cases i with
    | zero =>
      simp only [List.get] at herr
      simp [collectResults, herr]
    | succ j =>
      have hhead : resultIsOk (conv r) = true := by
        simpa using hok 0 (by simp) (Nat.succ_pos j)
      cases hc : conv r with
      | error e' => rw [hc] at hhead; simp [resultIsOk] at hhead
      | ok t =>
        have htail : collectResults conv rs = .error e := by
          refine ih j (by simpa using h1) e ?_ (by simpa using herr)
          intro j' hj' hlt
          simpa using hok (j' + 1) (by simpa using hj') (by omega)
        simp [collectResults, hc, htail]

/-- C2: for every 3-element array `[lon, lat, alt]` with finite `lon` in
[-180, 180] and finite `lat` in [-90, 90], `Coordinates::try_from`
succeeds; the result's `longitude` is the FIRST array element, its
`latitude` the second, and its `altitude` the third narrowed to an `f32`
— the array is read longitude-first, opposite to the (latitude,
longitude) named-field order. -/
theorem coordinates_tryFrom_lon_first (lon lat alt : F64) (qlon qlat : ℚ)
    (hlon : lon = .fin qlon) (hlon1 : -180 ≤ qlon) (hlon2 : qlon ≤ 180)
    (hlat : lat = .fin qlat) (hlat1 : -90 ≤ qlat) (hlat2 : qlat ≤ 90) :
    Coordinates.tryFrom (lon, lat, alt) =
      .ok { latitude := ⟨lat⟩, longitude := ⟨lon⟩, altitude := ⟨f64AsF32 alt⟩ } := by
  subst hlon hlat
  simp only [Coordinates.tryFrom, Latitude.new, Longitude.new, F64.le,
    Bool.and_eq_true, decide_eq_true_eq]
  rw [if_pos ⟨hlat1, hlat2⟩, if_pos ⟨hlon1, hlon2⟩]

/-- C2 witness: the triple (10, 20, NaN) — the altitude component is
never validated — converts with longitude 10 and latitude 20. -/
theorem coordinates_tryFrom_lon_first_witness :
    Coordinates.tryFrom (.fin 10, .fin 20, F64.nan) =
      .ok { latitude := ⟨.fin 20⟩, longitude := ⟨.fin 10⟩, altitude := ⟨f64AsF32 F64.nan⟩ } :=
  coordinates_tryFrom_lon_first (.fin 10) (.fin 20) F64.nan 10 20 rfl
    (by norm_num) (by norm_num) rfl (by norm_num) (by norm_num)

/-- C3: whenever the first array element (longitude) is non-finite or
outside [-180, 180], or the second (latitude) is non-finite or outside
[-90, 90], `Coordinates::try_from` fails with
`Error::GeographicDegreesOutOfBounds`, regardless of the other two
components. -/
theorem coordinates_tryFrom_bounds_error (lon lat alt : F64)
    (h : (∀ q, lon = F64.fin q → q < -180 ∨ 180 < q) ∨
         (∀ q, lat = F64.fin q → q < -90 ∨ 90 < q)) :
    Coordinates.tryFrom (lon, lat, alt) = .error .GeographicDegreesOutOfBounds := by
  rcases h with hlon | hlat
  · rcases latitude_new_ok_or_bounds lat with hL | hL <;>
      simp [Coordinates.tryFrom, hL, longitude_new_error_of_bad lon hlon]
  · simp [Coordinates.tryFrom, latitude_new_error_of_bad lat hlat]

/-- C3 witness: longitude 200 is rejected even though latitude 0 and
altitude 0 are unremarkable. -/
theorem coordinates_tryFrom_bounds_error_witness :
    Coordinates.tryFrom (.fin 200, .fin 0, .fin 0) =
      .error .GeographicDegreesOutOfBounds := by
  apply coordinates_tryFrom_bounds_error
  left
  intro q hq
  right
  injection hq with h
  subst h
  norm_num

/-- C4: over the `i8` range, every code in [-1, 30] except 4 decodes to a
variant whose table entry is that very code (so distinct codes give
distinct variants), and every other code fails with
`Error::UnknownWeatherCondition` carrying that same code. -/
theorem conditions_tryFrom_code_set (c : Int) (hlo : -128 ≤ c) (hhi : c ≤ 127) :
    ((-1 ≤ c ∧ c ≤ 30 ∧ c ≠ 4) →
      Conditions.tryFrom c = .ok (conditionsOfCode c) ∧
        Conditions.code (conditionsOfCode c) = c) ∧
    (¬(-1 ≤ c ∧ c ≤ 30 ∧ c ≠ 4) →
      Conditions.tryFrom c = .error (.UnknownWeatherCondition c)) ∧
    (∀ c', (-1 ≤ c ∧ c ≤ 30 ∧ c ≠ 4) → (-1 ≤ c' ∧ c' ≤ 30 ∧ c' ≠ 4) → c ≠ c' →
      Conditions.tryFrom c ≠ Conditions.tryFrom c') := by
  refine ⟨fun h => conditions_tryFrom_inSet c h.1 h.2.1 h.2.2,
    fun h => conditions_tryFrom_notInSet c h, ?_⟩
  intro c' h h' hne heq
  obtain ⟨hok, hcode⟩ := conditions_tryFrom_inSet c h.1 h.2.1 h.2.2
  obtain ⟨hok', hcode'⟩ := conditions_tryFrom_inSet c' h'.1 h'.2.1 h'.2.2
  rw [hok, hok'] at heq
  injection heq with hv
  exact hne (by rw [← hcode, hv, hcode'])

/-- C4 witness: code 10 decodes to the variant whose table entry is 10
(`LightRainShowerDay`). -/
theorem conditions_tryFrom_code_set_witness :
    Conditions.tryFrom 10 = .ok (conditionsOfCode 10) ∧
      Conditions.code (conditionsOfCode 10) = 10 :=
  (conditions_tryFrom_code_set 10 (by norm_num) (by norm_num)).1
    (by norm_num)

/-- C8: the advisory tier is a pure function of the UV value: converting
any value `v` stores `v` itself (so no separate tier state exists beyond
the value) and lands in the tier given by the fixed numeric bands
0 / 1–2 / 3–5 / 6–7 / 8–10 / 11+. -/
theorem uv_tier_pure_function_of_value (v : Nat) :
    Lib.UvIndex.value (Lib.UvIndex.fromU8 v) = v ∧
      Lib.UvIndex.tier (Lib.UvIndex.fromU8 v) = uvTierOfValue v := by
  unfold Lib.UvIndex.fromU8 uvTierOfValue
  split_ifs <;> simp_all [Lib.UvIndex.value, Lib.UvIndex.tier]

/-- C9: `Forecast::try_from` removes the first feature unconditionally,
so an envelope with an empty features list panics instead of returning a
typed error. -/
theorem forecast_tryFrom_empty_features_panics {R T : Type}
    (conv : R → Except Error T) (rf : RawForecast R) (h : rf.features = []) :
    Forecast.tryFrom conv rf = .panicked := by
  unfold Forecast.tryFrom
  rw [h]

/-- C9 witness: the empty envelope of weather-code series panics. -/
theorem forecast_tryFrom_empty_features_panics_witness :
    Forecast.tryFrom Conditions.tryFrom ⟨([] : List (RawFeature Int))⟩ =
      (.panicked : Conv (Forecast Conditions)) :=
  forecast_tryFrom_empty_features_panics Conditions.tryFrom ⟨[]⟩ rfl

/-- C6: hourly conversion never fails because one of the five optional
raw fields is absent — each optional field passes through as `Option.map`
of its unit wrapper — and its only failure is an unrecognized
significant weather code, whose error propagates unchanged. -/
theorem hourly_tryFrom_optional_passthrough (rf : RawHourlyForecast) :
    (∀ e, Conditions.tryFrom rf.significant_weather_code = .error e →
      Hourly.tryFrom rf = .error e) ∧
    (∀ c, Conditions.tryFrom rf.significant_weather_code = .ok c →
      Hourly.tryFrom rf = .ok
        { time := rf.time
          conditions := c
          temperature := ⟨rf.screen_temperature⟩
          temperature_maximum := rf.max_screen_air_temp.map Celsius.mk
          temperature_minimum := rf.min_screen_air_temp.map Celsius.mk
          temperature_feels_like := ⟨rf.feels_like_temperature⟩
          screen_dew_point_temperature := ⟨rf.screen_dew_point_temperature⟩
          precipitation_probability := ⟨rf.prob_of_precipitation⟩
          precipitation_rate := ⟨rf.precipitation_rate⟩
          precipitation_total := rf.total_precip_amount.map Millimetres.mk
          snow_total := rf.total_snow_amount.map Millimetres.mk
          wind_speed := ⟨rf.wind_speed_10m⟩
          wind_direction := ⟨rf.wind_direction_from_10m⟩
          wind_gust_speed := ⟨rf.wind_gust_speed_10m⟩
          wind_gust_hourly_maximum_speed := rf.max_10m_wind_gust.map MetresPerSecond.mk
          visibility := ⟨rf.visibility⟩
          relative_humidity := ⟨rf.screen_relative_humidity⟩
          pressure := ⟨rf.mslp⟩
          uv_index := ⟨rf.uv_index⟩ }) := by
  constructor
  · intro e he
    unfold Hourly.tryFrom
    rw [he]
  · intro c hc
    unfold Hourly.tryFrom
    rw [hc]

/-- C6 witness: a raw record shaped like the series tail (all five
optional fields absent, weather code 7 = Cloudy) converts successfully
with `none` in the five optional domain fields. -/
theorem hourly_tryFrom_optional_passthrough_witness :
    Hourly.tryFrom sampleHourlyTail = .ok
      { time := sampleHourlyTail.time
        conditions := .Cloudy
        temperature := ⟨sampleHourlyTail.screen_temperature⟩
        temperature_maximum := none
        temperature_minimum := none
        temperature_feels_like := ⟨sampleHourlyTail.feels_like_temperature⟩
        screen_dew_point_temperature := ⟨sampleHourlyTail.screen_dew_point_temperature⟩
        precipitation_probability := ⟨sampleHourlyTail.prob_of_precipitation⟩
        precipitation_rate := ⟨sampleHourlyTail.precipitation_rate⟩
        precipitation_total := none
        snow_total := none
        wind_speed := ⟨sampleHourlyTail.wind_speed_10m⟩
        wind_direction := ⟨sampleHourlyTail.wind_direction_from_10m⟩
        wind_gust_speed := ⟨sampleHourlyTail.wind_gust_speed_10m⟩
        wind_gust_hourly_maximum_speed := none
        visibility := ⟨sampleHourlyTail.visibility⟩
        relative_humidity := ⟨sampleHourlyTail.screen_relative_humidity⟩
        pressure := ⟨sampleHourlyTail.mslp⟩
        uv_index := ⟨sampleHourlyTail.uv_index⟩ } :=
  (hourly_tryFrom_optional_passthrough sampleHourlyTail).2 .Cloudy rfl

/-- C7: for every constructed `Latitude` and `Longitude` and every
granularity, `url_for_location` returns a URL without panicking: the
base endpoint is the granularity's fixed constant, and the query is
exactly latitude and longitude in decimal string form followed by the
three constant flags `source=BD1`, `excludeParameterMetadata=true`,
`includeLocationName=true`. -/
theorem url_for_location_total_and_fixed (g : Granularity)
    (latitude : Latitude) (longitude : Longitude) :
    url_for_location g latitude longitude =
      .value
        { base := baseUrlFor g
          query :=
            [("latitude", f64ToDecimalString latitude.d),
             ("longitude", f64ToDecimalString longitude.d),
             SOURCE_PARAM, METADATA_PARAM, LOCATION_NAME_PARAM] } := by
  cases g <;> rfl

lemma andThen_ok_value {α β : Type} (m : Conv α) (f : α → Conv β) (b : β)
    (h : Conv.andThen m f = .value (.ok b)) :
    ∃ a, m = .value (.ok a) ∧ f a = .value (.ok b) := by
  cases m with
  | panicked => exact RunResult.noConfusion h
  | value v =>
    cases v with
    | error e =>
      injection h with h'
      exact Except.noConfusion h'
    | ok a => exact ⟨a, rfl, h⟩

/-- C5: with a non-empty feature list, `Forecast::try_from` maps the raw
time series elementwise and in order through the per-granularity
converter: if the series collects successfully the predictions have the
same length and the i-th prediction is the conversion of the i-th raw
element (never re-sorted), and if some element fails while all earlier
ones succeed, the whole conversion returns exactly that first failing
element's error with no partial result. -/
theorem forecast_tryFrom_elementwise {R T : Type} (conv : R → Except Error T)
    (rf : RawForecast R) (feat : RawFeature R) (rest : List (RawFeature R))
    (hf : rf.features = feat :: rest) :
    (∀ ts, collectResults conv feat.properties.time_series = .ok ts →
      Forecast.tryFrom conv rf = .value (.ok
        { location_name := feat.properties.location.name
          coordinates := feat.geometry.coordinates
          requested_point_distance := ⟨feat.properties.request_point_distance⟩
          predictions_made_at := feat.properties.model_run_date
          predictions := ts }) ∧
      ts.length = feat.properties.time_series.length ∧
      (∀ i (h1 : i < feat.properties.time_series.length) (h2 : i < ts.length),
        conv (feat.properties.time_series.get ⟨i, h1⟩) = .ok (ts.get ⟨i, h2⟩))) ∧
    (∀ i (h1 : i < feat.properties.time_series.length) (e : Error),
      (∀ j (hj : j < feat.properties.time_series.length), j < i →
        resultIsOk (conv (feat.properties.time_series.get ⟨j, hj⟩)) = true) →
      conv (feat.properties.time_series.get ⟨i, h1⟩) = .error e →
      Forecast.tryFrom conv rf = .value (.error e)) := by
  constructor
  · intro ts hts
    obtain ⟨hlen, helem⟩ := collectResults_ok_spec conv _ ts hts
    refine ⟨?_, hlen, helem⟩
    simp only [Forecast.tryFrom, hf, hts]
  · intro i h1 e hok herr
    have hcol := collectResults_first_error conv _ i h1 e hok herr
    simp only [Forecast.tryFrom, hf, hcol]

/-- C5 witness: the sample envelope with codes [1, 0] converts to the
predictions [SunnyDay, ClearNight], preserving length and order. -/
theorem forecast_tryFrom_elementwise_witness :
    Forecast.tryFrom Conditions.tryFrom sampleEnvelope = .value (.ok
      { location_name := sampleFeature.properties.location.name
        coordinates := sampleFeature.geometry.coordinates
        requested_point_distance := ⟨sampleFeature.properties.request_point_distance⟩
        predictions_made_at := sampleFeature.properties.model_run_date
        predictions := [.SunnyDay, .ClearNight] }) :=
  ((forecast_tryFrom_elementwise Conditions.tryFrom sampleEnvelope sampleFeature []
    rfl).1 [.SunnyDay, .ClearNight] rfl).1

/-- C1: the daily converter's variant decision depends only on the
presence of `day_max_feels_like_temp` (the converter has no access to
record position).  When the field is absent and the night code decodes,
the result is the `Past` variant populated with exactly the midday
wind/visibility/humidity/pressure fields, the max-temperature
prediction, and the feels-like-maximum bounds, each from its raw
counterpart.  When the field is present (with all the future-only fields
it travels with, and both codes decoding), the result is the `Future`
variant carrying all of those plus UV index maximum, conditions, the
full feels-like-maximum prediction and the seven precipitation-type
probabilities.  Finally, any successful conversion is `Past` exactly
when the discriminator field was absent. -/
theorem daily_variant_split (rf : RawDailyForecast) :
    (∀ nc, rf.day_max_feels_like_temp = none →
      Conditions.tryFrom rf.night_significant_weather_code = .ok nc →
      Daily.tryFrom rf = Conv.pure
        { time := rf.time
          day := Day.Past
            { temperature_maximum :=
                { most_likely := ⟨rf.day_max_screen_temperature⟩
                  upper_bound := ⟨rf.day_upper_bound_max_temp⟩
                  lower_bound := ⟨rf.day_lower_bound_max_temp⟩ }
              temperature_feels_like_maximum_upper_bound :=
                ⟨rf.day_upper_bound_max_feels_like_temp⟩
              temperature_feels_like_maximum_lower_bound :=
                ⟨rf.day_lower_bound_max_feels_like_temp⟩
              relative_humidity := ⟨rf.midday_relative_humidity⟩
              pressure := ⟨rf.midday_mslp⟩
              visibility := ⟨rf.midday_visibility⟩
              wind_speed := ⟨rf.midday_10m_wind_speed⟩
              wind_direction := ⟨rf.midday_10m_wind_direction⟩
              wind_gust_speed := ⟨rf.midday_10m_wind_gust⟩ }
          night := Night.ofRaw rf nc }) ∧
    (∀ x uv k dc pp pr phr ps phs ph psf nc,
      rf.day_max_feels_like_temp = some x →
      rf.max_uv_index = some uv →
      rf.day_significant_weather_code = some k →
      Conditions.tryFrom k = .ok dc →
      rf.day_probability_of_precipitation = some pp →
      rf.day_probability_of_rain = some pr →
      rf.day_probability_of_heavy_rain = some phr →
      rf.day_probability_of_snow = some ps →
      rf.day_probability_of_heavy_snow = some phs →
      rf.day_probability_of_hail = some ph →
      rf.day_probability_of_sferics = some psf →
      Conditions.tryFrom rf.night_significant_weather_code = .ok nc →
      Daily.tryFrom rf = Conv.pure
        { time := rf.time
          day := Day.Future
            { conditions := dc
              temperature_maximum :=
                { most_likely := ⟨rf.day_max_screen_temperature⟩
                  upper_bound := ⟨rf.day_upper_bound_max_temp⟩
                  lower_bound := ⟨rf.day_lower_bound_max_temp⟩ }
              temperature_feels_like_maximum :=
                { most_likely := ⟨x⟩
                  upper_bound := ⟨rf.day_upper_bound_max_feels_like_temp⟩
                  lower_bound := ⟨rf.day_lower_bound_max_feels_like_temp⟩ }
              relative_humidity := ⟨rf.midday_relative_humidity⟩
              precipitation_probability := ⟨pp⟩
              rain_probability := ⟨pr⟩
              heavy_rain_probability := ⟨phr⟩
              snow_probability := ⟨ps⟩
              heavy_snow_probability := ⟨phs⟩
              hail_probability := ⟨ph⟩
              lightning_probability := ⟨psf⟩
              pressure := ⟨rf.midday_mslp⟩
              uv_index_maximum := ⟨uv⟩
              visibility := ⟨rf.midday_visibility⟩
              wind_speed := ⟨rf.midday_10m_wind_speed⟩
              wind_direction := ⟨rf.midday_10m_wind_direction⟩
              wind_gust_speed := ⟨rf.midday_10m_wind_gust⟩ }
          night := Night.ofRaw rf nc }) ∧
    (∀ d, Daily.tryFrom rf = .value (.ok d) →
      ((∃ p, d.day = Day.Past p) ↔ rf.day_max_feels_like_temp = none)) := by
  refine ⟨?_, ?_, ?_⟩
  · intro nc hnone hnc
    simp only [Daily.tryFrom, hnone, hnc, liftResult, Conv.andThen]
  · intro x uv k dc pp pr phr ps phs ph psf nc
    intro hx huv hk hdc hpp hpr hphr hps hphs hph hpsf hnc
    simp only [Daily.tryFrom, hx, huv, hk, hdc, hpp, hpr, hphr, hps, hphs, hph, hpsf, hnc,
      unwrapOrPanic, liftResult, Conv.andThen]
  · intro d hd
    cases hfeels : rf.day_max_feels_like_temp with
    | none =>
      simp only [Daily.tryFrom, hfeels] at hd
      obtain ⟨nc, -, hd⟩ := andThen_ok_value _ _ _ hd
      simp only [Conv.pure] at hd
      injection hd with h1
      injection h1 with h2
      subst h2
      simp
    | some x =>
      simp only [Daily.tryFrom, hfeels] at hd
      obtain ⟨uv, -, hd⟩ := andThen_ok_value _ _ _ hd
      obtain ⟨k, -, hd⟩ := andThen_ok_value _ _ _ hd
      obtain ⟨dc, -, hd⟩ := andThen_ok_value _ _ _ hd
      obtain ⟨pp, -, hd⟩ := andThen_ok_value _ _ _ hd
      obtain ⟨pr, -, hd⟩ := andThen_ok_value _ _ _ hd
      obtain ⟨phr, -, hd⟩ := andThen_ok_value _ _ _ hd
      obtain ⟨ps, -, hd⟩ := andThen_ok_value _ _ _ hd
      obtain ⟨phs, -, hd⟩ := andThen_ok_value _ _ _ hd
      obtain ⟨ph, -, hd⟩ := andThen_ok_value _ _ _ hd
      obtain ⟨psf, -, hd⟩ := andThen_ok_value _ _ _ hd
      obtain ⟨nc, -, hd⟩ := andThen_ok_value _ _ _ hd
      simp only [Conv.pure] at hd
      injection hd with h1
      injection h1 with h2
      subst h2
      simp

/-- C1 witness: the sample elapsed-day record (discriminator absent,
night code 0 = ClearNight) converts to the `Past` variant with the
documented field subset. -/
theorem daily_variant_split_witness :
    Daily.tryFrom sampleDailyPast = Conv.pure
      { time := sampleDailyPast.time
        day := Day.Past
          { temperature_maximum :=
              { most_likely := ⟨sampleDailyPast.day_max_screen_temperature⟩
                upper_bound := ⟨sampleDailyPast.day_upper_bound_max_temp⟩
                lower_bound := ⟨sampleDailyPast.day_lower_bound_max_temp⟩ }
            temperature_feels_like_maximum_upper_bound :=
              ⟨sampleDailyPast.day_upper_bound_max_feels_like_temp⟩
            temperature_feels_like_maximum_lower_bound :=
              ⟨sampleDailyPast.day_lower_bound_max_feels_like_temp⟩
            relative_humidity := ⟨sampleDailyPast.midday_relative_humidity⟩
            pressure := ⟨sampleDailyPast.midday_mslp⟩
            visibility := ⟨sampleDailyPast.midday_visibility⟩
            wind_speed := ⟨sampleDailyPast.midday_10m_wind_speed⟩
            wind_direction := ⟨sampleDailyPast.midday_10m_wind_direction⟩
            wind_gust_speed := ⟨sampleDailyPast.midday_10m_wind_gust⟩ }
        night := Night.ofRaw sampleDailyPast .ClearNight } :=
  (daily_variant_split sampleDailyPast).1 .ClearNight rfl rfl

/-- C10 (amended): with `day_max_feels_like_temp` present, the `Future`
branch panics on `unwrap` when the max UV index is absent, when the day
weather code is absent, or — once both of those are present and the code
decodes — when any of the seven day precipitation probabilities is
absent.  (When the day code is present but unrecognized, the `?` on its
decode returns the unknown-condition error before the probability
unwraps run, so that single case errors instead of panicking.) -/
theorem daily_future_missing_fields_panic (rf : RawDailyForecast) (x : F64)
    (hfeels : rf.day_max_feels_like_temp = some x) :
    (rf.max_uv_index = none → Daily.tryFrom rf = .panicked) ∧
    (∀ uv, rf.max_uv_index = some uv → rf.day_significant_weather_code = none →
      Daily.tryFrom rf = .panicked) ∧
    (∀ uv k dc, rf.max_uv_index = some uv → rf.day_significant_weather_code = some k →
      Conditions.tryFrom k = .ok dc →
      (rf.day_probability_of_precipitation = none ∨
       rf.day_probability_of_rain = none ∨
       rf.day_probability_of_heavy_rain = none ∨
       rf.day_probability_of_snow = none ∨
       rf.day_probability_of_heavy_snow = none ∨
       rf.day_probability_of_hail = none ∨
       rf.day_probability_of_sferics = none) →
      Daily.tryFrom rf = .panicked) := by
  refine ⟨?_, ?_, ?_⟩
  · intro huv
    simp only [Daily.tryFrom, hfeels, huv, unwrapOrPanic, Conv.andThen]
  · intro uv huv hk
    simp only [Daily.tryFrom, hfeels, huv, hk, unwrapOrPanic, Conv.andThen]
  · intro uv k dc huv hk hdc hdisj
    simp only [Daily.tryFrom, hfeels, huv, hk, hdc, unwrapOrPanic, liftResult, Conv.andThen]
    rcases hpp : rf.day_probability_of_precipitation with _ | pp
    · simp only [unwrapOrPanic, Conv.andThen]
    rcases hpr : rf.day_probability_of_rain with _ | pr
    · simp only [unwrapOrPanic, Conv.andThen]
    rcases hphr : rf.day_probability_of_heavy_rain with _ | phr
    · simp only [unwrapOrPanic, Conv.andThen]
    rcases hps : rf.day_probability_of_snow with _ | ps
    · simp only [unwrapOrPanic, Conv.andThen]
    rcases hphs : rf.day_probability_of_heavy_snow with _ | phs
    · simp only [unwrapOrPanic, Conv.andThen]
    rcases hph : rf.day_probability_of_hail with _ | ph
    · simp only [unwrapOrPanic, Conv.andThen]
    rcases hpsf : rf.day_probability_of_sferics with _ | psf
    · simp only [unwrapOrPanic, Conv.andThen]
    rcases hdisj with h | h | h | h | h | h | h <;> simp_all

/-- C10 witness: the sample future-shaped record with the max UV index
removed panics. -/
theorem daily_future_missing_fields_panic_witness :
    Daily.tryFrom sampleDailyNoUv = .panicked :=
  (daily_future_missing_fields_panic sampleDailyNoUv (.fin 20) rfl).1 rfl

/-- C10 counterexample to the claim as stated: in this record the
max feels-like temperature is present and a future-only optional field
(the precipitation probability) is absent, yet conversion does not
panic — the day weather code is the unused code 4, whose decode fails
via `?` before any probability `unwrap` runs, so a typed
unknown-condition error is returned instead. -/
theorem daily_future_missing_prob_errors_not_panics :
    sampleDailyBadCode.day_max_feels_like_temp = some (.fin 20) ∧
    sampleDailyBadCode.day_probability_of_precipitation = none ∧
    Daily.tryFrom sampleDailyBadCode =
      .value (.error (.UnknownWeatherCondition 4)) :=
  ⟨rfl, rfl, rfl⟩
